import Mathlib

/-!
Shallow embedding of the Hourglass simulated-exchange core (the parts the
claims touch), translated from the Rust sources:

* src/common/balance.rs               — Balance, BalanceDelta, Balance::apply
* src/common_skeleton/order.rs        — Order<State>, RequestOpen, Open,
                                        calculate_required_available_balance,
                                        Ord/PartialOrd for Order<Open>
* src/common/account_positions/mod.rs — AccountPositions, update_position,
                                        build_new_perpetual_position,
                                        has_long_position, has_short_position
* src/simulated_exchange/ws_trade.rs  — parse_base_and_quote

Numeric conventions of the embedding: the Rust `f64` fields are modelled by
exact rationals (ℚ) wherever the claims are about arithmetic and control
flow.  For the `Order<Open>` comparator, whose behaviour on incomparable
(NaN) values is itself under scrutiny, `f64` is modelled by the type `F`
below, a rational extended with a NaN element, and `partial_cmp` returns
`none` exactly when one operand is NaN.  A Rust `panic!` / `todo!` is
modelled by an `Option`-valued function returning `none`.  Real-time
fields (`time: DateTime<Utc>` stamped with `Utc::now()`) are omitted: they
are not part of any claim and are not modellable deterministically.
-/

namespace Hourglass

/-- Modelled from the spec: `Token` is an opaque symbol (token.rs is not
under src/). -/
abbrev Token := String

/-- Modelled from the spec: the instrument kinds (instrument/kind.rs is not
under src/); the seven variants are listed in spec §3 and matched
exhaustively by `has_long_position` in account_positions/mod.rs. -/
inductive InstrumentKind where
  | Spot
  | Perpetual
  | Future
  | CryptoOption
  | CryptoLeveragedToken
  | CommodityFuture
  | CommodityOption
deriving DecidableEq

/-- Modelled from the spec: `Instrument { base, quote, kind }`
(instrument.rs is not under src/); structural equality, used as a map
key. -/
structure Instrument where
  base : Token
  quote : Token
  kind : InstrumentKind
deriving DecidableEq

/-- Modelled from the spec: `Side ∈ { Buy, Sell }` (side.rs is not under
src/). -/
inductive Side where
  | Buy
  | Sell
deriving DecidableEq

/-! ## Balance (src/common/balance.rs)

The Rust `Balance` also carries `time: DateTime<Utc>`, refreshed with
`Utc::now()` on every successful `apply`; the claims speak only about
`total` and `available`, so the embedding keeps exactly those two
fields. -/

/-- `Balance { total, available }` from balance.rs (the `time` field is
omitted, see above). -/
structure Balance where
  total : ℚ
  available : ℚ
deriving DecidableEq

/-- `Balance::used`: `total - available`. -/
def Balance.used (b : Balance) : ℚ :=
  b.total - b.available

/-- `BalanceDelta { total, available }` from balance.rs. -/
structure BalanceDelta where
  total : ℚ
  available : ℚ
deriving DecidableEq

/-- The negated delta `(-d.total, -d.available)`. -/
def BalanceDelta.neg (d : BalanceDelta) : BalanceDelta :=
  { total := -d.total, available := -d.available }

/-- `Balance::apply` from balance.rs.  The Rust method mutates `&mut self`
and returns `Result<(), &'static str>`; the embedding returns the pair of
the `Result` and the balance after the call (unchanged when the delta is
rejected). -/
def Balance.apply (b : Balance) (delta : BalanceDelta) :
    Except String Unit × Balance :=
  if b.total + delta.total < 0 ∨ b.available + delta.available < 0 then
    (Except.error "Insufficient balance to apply the delta.", b)
  else
    (Except.ok (),
     { total := b.total + delta.total,
       available := b.available + delta.available })

/-! ## Orders (src/common_skeleton/order.rs) -/

/-- `OrderKind` from order.rs. -/
inductive OrderKind where
  | Market
  | Limit
  | ImmediateOrCancel
  | FillOrKill
  | GoodTilCancelled
deriving DecidableEq

/-- `OrderId(pub String)` from order.rs. -/
abbrev OrderId := String

/-- `f64` extended with its incomparable element: `F.num q` models an
ordinary (finite) value, `F.nan` models NaN.  Only the comparator claims
need the NaN element, so ±∞ is not modelled. -/
inductive F where
  | nan
  | num (q : ℚ)
deriving DecidableEq

/-- Total comparison of two rationals, mirroring how `f64::partial_cmp`
orders two non-NaN values. -/
def qcmp (a b : ℚ) : Ordering :=
  if a < b then Ordering.lt else if a = b then Ordering.eq else Ordering.gt

/-- `f64::partial_cmp`: `none` exactly when one operand is NaN. -/
def F.partialCmp : F → F → Option Ordering
  | F.nan, _ => none
  | F.num _, F.nan => none
  | F.num a, F.num b => some (qcmp a b)

/-- `f64` subtraction on the model: NaN is absorbing. -/
def F.sub : F → F → F
  | F.num a, F.num b => F.num (a - b)
  | _, _ => F.nan

/-- `Order<State>` from order.rs: `{ exchange, instrument, client_ts, cid,
side, state }`.  `ExchangeID` and `ClientOrderId` are opaque to every
claim and are modelled as strings. -/
structure Order (State : Type) where
  exchange : String
  instrument : Instrument
  client_ts : Int
  cid : String
  side : Side
  state : State
deriving DecidableEq

/-- `RequestOpen { kind, price, size }` from order.rs. -/
structure RequestOpen where
  kind : OrderKind
  price : ℚ
  size : ℚ
deriving DecidableEq

/-- `Order<RequestOpen>::calculate_required_available_balance` from
order.rs: `(quote, price * size)` for `Buy`, `(base, size)` for `Sell`. -/
def Order.calculate_required_available_balance (o : Order RequestOpen) :
    Token × ℚ :=
  match o.side with
  | Side.Buy => (o.instrument.quote, o.state.price * o.state.size)
  | Side.Sell => (o.instrument.base, o.state.size)

/-- `Open { kind, id, price, size, filled_quantity }` from order.rs. -/
structure Open where
  kind : OrderKind
  id : OrderId
  price : F
  size : F
  filled_quantity : F
deriving DecidableEq

/-- `Open::remaining_quantity`: `size - filled_quantity`. -/
def Open.remaining_quantity (s : Open) : F :=
  F.sub s.size s.filled_quantity

/-- `PartialOrd for Order<Open>` from order.rs: two buys compare by
`price` then by `remaining_quantity` (self against other); two sells
compare by `price` then by `remaining_quantity` with the operands
swapped (other against self); a buy and a sell are incomparable. -/
def Order.partialCmp (a b : Order Open) : Option Ordering :=
  match a.side, b.side with
  | Side.Buy, Side.Buy =>
    match F.partialCmp a.state.price b.state.price with
    | none => none
    | some Ordering.eq =>
        F.partialCmp a.state.remaining_quantity b.state.remaining_quantity
    | some c => some c
  | Side.Sell, Side.Sell =>
    match F.partialCmp b.state.price a.state.price with
    | none => none
    | some Ordering.eq =>
        F.partialCmp b.state.remaining_quantity a.state.remaining_quantity
    | some c => some c
  | _, _ => none

/-- `Ord for Order<Open>` from order.rs:
`self.partial_cmp(other).unwrap_or_else(|| panic!(..))`.  The panic on
incomparable operands is modelled by `none`; `some c` models a normal
return of `c`. -/
def Order.cmp (a b : Order Open) : Option Ordering :=
  Order.partialCmp a b

/-- Lexicographic ascending comparison of (price, remaining-quantity)
pairs, the mathematical description the comparator is measured against. -/
def lexCmp (x y : ℚ × ℚ) : Ordering :=
  match qcmp x.1 y.1 with
  | Ordering.eq => qcmp x.2 y.2
  | c => c

/-! ## Positions (src/common/account_positions/mod.rs)

The ten position maps are `HashMap<Instrument, _>` behind per-map locks;
every access in the claims' code paths takes the lock around a single
read or write, so the embedding is the plain map content, modelled as an
association list with insert-or-replace.  Supporting types whose files
are not under src/ (PositionMeta, PositionId, the position structs other
than FuturePosition, ClientTrade, AccountConfig) are modelled from the
spec §3/§6 and from the fields the code in mod.rs reads and writes. -/

/-- `PositionDirectionMode` from account_positions/mod.rs. -/
inductive PositionDirectionMode where
  | LongShortMode
  | NetMode
deriving DecidableEq

/-- `PositionMarginMode` from account_positions/mod.rs. -/
inductive PositionMarginMode where
  | Cross
  | Isolated
deriving DecidableEq

/-- Modelled from the spec: `PositionId` is derived from
`(instrument, open_timestamp)` (position_id.rs is not under src/; the
64-bit hashing is immaterial to the claims, the pair itself is kept). -/
structure PositionId where
  instrument : Instrument
  ts : Int
deriving DecidableEq

/-- The `Balance` revision used by account_positions/mod.rs, which carries
a `current_price` field (the `time` field is omitted as in `Balance`). -/
structure BalanceWithPrice where
  current_price : ℚ
  total : ℚ
  available : ℚ
deriving DecidableEq

/-- `TokenBalance` as used by account_positions/mod.rs. -/
structure TokenBalanceWithPrice where
  token : Token
  balance : BalanceWithPrice
deriving DecidableEq

/-- Modelled from the spec: `PositionMeta` (position_meta.rs is not under
src/); the fields are the ones spec §3 lists and the builder chain in
`build_new_perpetual_position` sets. -/
structure PositionMeta where
  position_id : PositionId
  enter_ts : Int
  update_ts : Int
  exit_balance : TokenBalanceWithPrice
  exchange : String
  instrument : Instrument
  side : Side
  current_size : ℚ
  current_fees_total : ℚ
  current_avg_price_gross : ℚ
  current_symbol_price : ℚ
  current_avg_price : ℚ
  unrealised_pnl : ℚ
  realised_pnl : ℚ
deriving DecidableEq

/-- `PerpetualPositionConfig { pos_margin_mode, leverage, position_mode }`
as constructed in account_positions/mod.rs. -/
structure PerpetualPositionConfig where
  pos_margin_mode : PositionMarginMode
  leverage : ℚ
  position_mode : PositionDirectionMode
deriving DecidableEq

/-- `PerpetualPosition { meta, liquidation_price, margin, pos_config }`
(perpetual.rs is not under src/; the four fields are the ones the builder
in mod.rs sets and its tests read). -/
structure PerpetualPosition where
  meta : PositionMeta
  liquidation_price : ℚ
  margin : ℚ
  pos_config : PerpetualPositionConfig
deriving DecidableEq

/-- `FuturePosition { meta }` from
src/common_infrastructure/position/future.rs. -/
structure FuturePosition where
  meta : PositionMeta
deriving DecidableEq

/-- Modelled from the spec: `LeveragedTokenPosition` wraps a
`PositionMeta` (leveraged_token.rs is not under src/; only `meta.side`
and `meta.instrument` are read by the code under scrutiny). -/
structure LeveragedTokenPosition where
  meta : PositionMeta
deriving DecidableEq

/-- Modelled from the spec: `OptionPosition` wraps a `PositionMeta`
(option.rs is not under src/). -/
structure OptionPosition where
  meta : PositionMeta
deriving DecidableEq

/-- `Position` from account_positions/mod.rs. -/
inductive Position where
  | Perpetual (p : PerpetualPosition)
  | LeveragedToken (p : LeveragedTokenPosition)
  | Future (p : FuturePosition)
  | Opt (p : OptionPosition)
deriving DecidableEq

/-- One `HashMap<Instrument, α>`, as an association list. -/
abbrev PosMap (α : Type) := List (Instrument × α)

/-- `HashMap` insert-or-replace: replace the entry of the key in place
when present, append otherwise (entry order is immaterial to every
claim). -/
def upsert {α : Type} : PosMap α → Instrument → α → PosMap α
  | [], k, v => [(k, v)]
  | (k', v') :: rest, k, v =>
    if k' = k then (k, v) :: rest else (k', v') :: upsert rest k v

/-- `positions.iter().any(|(key, _)| key == instrument)`. -/
def containsKey {α : Type} (m : PosMap α) (k : Instrument) : Bool :=
  m.any (fun p => p.1 == k)

/-- `AccountPositions` from account_positions/mod.rs: the ten partitioned
maps. -/
structure AccountPositions where
  margin_pos_long : PosMap LeveragedTokenPosition
  margin_pos_short : PosMap LeveragedTokenPosition
  perpetual_pos_long : PosMap PerpetualPosition
  perpetual_pos_short : PosMap PerpetualPosition
  futures_pos_long : PosMap FuturePosition
  futures_pos_short : PosMap FuturePosition
  option_pos_long_call : PosMap OptionPosition
  option_pos_long_put : PosMap OptionPosition
  option_pos_short_call : PosMap OptionPosition
  option_pos_short_put : PosMap OptionPosition
deriving DecidableEq

/-- `AccountPositions::init`: all ten maps empty. -/
def AccountPositions.init : AccountPositions :=
  { margin_pos_long := []
    margin_pos_short := []
    perpetual_pos_long := []
    perpetual_pos_short := []
    futures_pos_long := []
    futures_pos_short := []
    option_pos_long_call := []
    option_pos_long_put := []
    option_pos_short_call := []
    option_pos_short_put := [] }

/-- `AccountPositions::update_position` from account_positions/mod.rs:
route by position kind and `meta.side` to the matching map and
insert-or-replace there; the `Position::Option` arm is `todo!()` (a
panic), modelled by `none`.  No branch consults `position_mode`. -/
def AccountPositions.update_position (s : AccountPositions) :
    Position → Option AccountPositions
  | Position.Perpetual p =>
    match p.meta.side with
    | Side.Buy => some { s with
        perpetual_pos_long := upsert s.perpetual_pos_long p.meta.instrument p }
    | Side.Sell => some { s with
        perpetual_pos_short := upsert s.perpetual_pos_short p.meta.instrument p }
  | Position.LeveragedToken p =>
    match p.meta.side with
    | Side.Buy => some { s with
        margin_pos_long := upsert s.margin_pos_long p.meta.instrument p }
    | Side.Sell => some { s with
        margin_pos_short := upsert s.margin_pos_short p.meta.instrument p }
  | Position.Future p =>
    match p.meta.side with
    | Side.Buy => some { s with
        futures_pos_long := upsert s.futures_pos_long p.meta.instrument p }
    | Side.Sell => some { s with
        futures_pos_short := upsert s.futures_pos_short p.meta.instrument p }
  | Position.Opt _ => none

/-- A sequence of `update_position` calls, stopping at a panic. -/
def applyUpdates (s : AccountPositions) :
    List Position → Option AccountPositions
  | [] => some s
  | p :: rest =>
    match s.update_position p with
    | some s' => applyUpdates s' rest
    | none => none

/-- `AccountPositions::has_long_position` from account_positions/mod.rs:
`Spot`, `CommodityOption` and `CommodityFuture` hit `todo!(..)` (a
panic, modelled by `none`); the other kinds report membership of the
corresponding long map. -/
def AccountPositions.has_long_position (s : AccountPositions)
    (instrument : Instrument) : Option Bool :=
  match instrument.kind with
  | InstrumentKind.Spot => none
  | InstrumentKind.CommodityOption => none
  | InstrumentKind.CommodityFuture => none
  | InstrumentKind.Perpetual => some (containsKey s.perpetual_pos_long instrument)
  | InstrumentKind.Future => some (containsKey s.futures_pos_long instrument)
  | InstrumentKind.CryptoOption => some (containsKey s.option_pos_long_call instrument)
  | InstrumentKind.CryptoLeveragedToken => some (containsKey s.margin_pos_long instrument)

/-- `AccountPositions::has_short_position` from account_positions/mod.rs
(note: `CryptoOption` reads the short-put map). -/
def AccountPositions.has_short_position (s : AccountPositions)
    (instrument : Instrument) : Option Bool :=
  match instrument.kind with
  | InstrumentKind.Spot => none
  | InstrumentKind.CommodityOption => none
  | InstrumentKind.CommodityFuture => none
  | InstrumentKind.Perpetual => some (containsKey s.perpetual_pos_short instrument)
  | InstrumentKind.Future => some (containsKey s.futures_pos_short instrument)
  | InstrumentKind.CryptoOption => some (containsKey s.option_pos_short_put instrument)
  | InstrumentKind.CryptoLeveragedToken => some (containsKey s.margin_pos_short instrument)

/-- `ClientTrade` — modelled from the spec §3 (trade.rs is not under
src/): `{ instrument, price, quantity, fees, side, timestamp }`. -/
structure ClientTrade where
  instrument : Instrument
  price : ℚ
  quantity : ℚ
  fees : ℚ
  side : Side
  timestamp : Int
deriving DecidableEq

/-- `AccountConfig` — modelled from the spec §6 (account_config.rs is not
under src/); only the three fields `build_new_perpetual_position` reads
are kept. -/
structure AccountConfig where
  position_direction_mode : PositionDirectionMode
  position_margin_mode : PositionMarginMode
  account_leverage_rate : ℚ
deriving DecidableEq

/-- `AccountPositions::build_new_perpetual_position` from
account_positions/mod.rs.  The two builders it calls (perpetual.rs and
position_meta.rs, not under src/) are modelled from the spec as plain
record constructors, which succeed since every field is supplied, so the
`Result` wrapper is dropped.  `initial_margin` and `liquidation_price`
are computed exactly as in the source (lines 170 and 196–201). -/
def AccountPositions.build_new_perpetual_position (config : AccountConfig)
    (trade : ClientTrade) (exchange_ts : Int) : PerpetualPosition :=
  let initial_margin := trade.price * trade.quantity / config.account_leverage_rate
  let position_meta : PositionMeta :=
    { position_id := { instrument := trade.instrument, ts := trade.timestamp }
      enter_ts := exchange_ts
      update_ts := exchange_ts
      exit_balance :=
        { token := trade.instrument.base
          balance := { current_price := trade.price
                       total := trade.quantity
                       available := trade.quantity } }
      exchange := "SandBox"
      instrument := trade.instrument
      side := trade.side
      current_size := trade.quantity
      current_fees_total := trade.fees
      current_avg_price_gross := trade.price
      current_symbol_price := trade.price
      current_avg_price := trade.price
      unrealised_pnl := 0
      realised_pnl := 0 }
  let liquidation_price :=
    if trade.side = Side.Buy then
      trade.price * (1 - initial_margin / (trade.quantity * trade.price))
    else
      trade.price * (1 + initial_margin / (trade.quantity * trade.price))
  { meta := position_meta
    liquidation_price := liquidation_price
    margin := initial_margin
    pos_config := { pos_margin_mode := config.position_margin_mode
                    leverage := config.account_leverage_rate
                    position_mode := config.position_direction_mode } }

/-! ## Symbol parsing (src/simulated_exchange/ws_trade.rs)

Strings are modelled as lists of characters; the Rust byte slice
`&basequote[..len - quote.len()]` is taken only after `ends_with(quote)`
succeeded for an ASCII `quote`, so it coincides with dropping that
suffix. -/

/-- The candidate quote assets, in the order the source iterates them. -/
def quote_assets : List (List Char) :=
  ["USDT".toList, "USDC".toList, "USD".toList,
   "UST".toList, "DAI".toList, "FDUSD".toList]

/-- The loop body of `parse_base_and_quote`: try each candidate quote in
turn; on the first suffix match (`str::ends_with`) return the split,
otherwise fall through to `(basequote, "")`. -/
def parseLoop : List (List Char) → List Char → List Char × List Char
  | [], basequote => (basequote, [])
  | q :: rest, basequote =>
    if q <:+ basequote then
      (basequote.take (basequote.length - q.length), q)
    else
      parseLoop rest basequote

/-- `parse_base_and_quote` from ws_trade.rs. -/
def parse_base_and_quote (basequote : List Char) : List Char × List Char :=
  parseLoop quote_assets basequote

/-! ## Theorems -/

/-- `Result::is_ok` on the embedded return value of `Balance::apply`. -/
def resultIsOk : Except String Unit → Bool
  | Except.ok _ => true
  | Except.error _ => false

/-- C3: `Balance::apply` errors exactly when `total + d.total < 0` or
`available + d.available < 0`; on error the balance is unchanged; on
success both fields are incremented by the delta. -/
theorem C3_apply_spec (b : Balance) (d : BalanceDelta) :
    (resultIsOk (b.apply d).1 = false ↔
      (b.total + d.total < 0 ∨ b.available + d.available < 0)) ∧
    (resultIsOk (b.apply d).1 = false → (b.apply d).2 = b) ∧
    (resultIsOk (b.apply d).1 = true →
      (b.apply d).2.total = b.total + d.total ∧
      (b.apply d).2.available = b.available + d.available) := by
  by_cases hc : b.total + d.total < 0 ∨ b.available + d.available < 0 <;>
    simp [Balance.apply, hc, resultIsOk]

/-- Concrete instance of `C3_apply_spec` (the balance and delta of the
repository's own `balance_apply_should_apply_balance_delta` test). -/
def c3b : Balance := { total := 100, available := 50 }

/-- Delta used alongside `c3b`. -/
def c3d : BalanceDelta := { total := 10, available := 5 }

/-- Witness for C3: applying `(10, 5)` to `(100, 50)` succeeds and yields
`(110, 55)`. -/
theorem C3_witness :
    (c3b.apply c3d).2.total = c3b.total + c3d.total ∧
    (c3b.apply c3d).2.available = c3b.available + c3d.available :=
  (C3_apply_spec c3b c3d).2.2
    (by norm_num [c3b, c3d, Balance.apply, resultIsOk])

/-- Balance for the C4 counterexample. -/
def c4b : Balance := { total := 10, available := 10 }

/-- Delta for the C4 counterexample: shrink `total` only. -/
def c4d : BalanceDelta := { total := -5, available := 0 }

/-- C4 counterexample: from the invariant-satisfying balance
`(total 10, available 10)`, the delta `(-5, 0)` is accepted by
`Balance::apply` (both sums stay non-negative) but the result
`(total 5, available 10)` violates `available ≤ total`. -/
theorem C4_counterexample :
    (0 ≤ c4b.available ∧ c4b.available ≤ c4b.total) ∧
    resultIsOk (c4b.apply c4d).1 = true ∧
    ¬ (c4b.apply c4d).2.available ≤ (c4b.apply c4d).2.total := by
  norm_num [c4b, c4d, Balance.apply, resultIsOk]

/-- C4 amended: `Balance::apply` only checks each field's new value
against zero, so on success the result satisfies `0 ≤ available` and
`0 ≤ total`, but not necessarily `available ≤ total`. -/
theorem C4_amended (b : Balance) (d : BalanceDelta)
    (_h0 : 0 ≤ b.available) (_h1 : b.available ≤ b.total)
    (hs : resultIsOk (b.apply d).1 = true) :
    0 ≤ (b.apply d).2.available ∧ 0 ≤ (b.apply d).2.total := by
  by_cases hc : b.total + d.total < 0 ∨ b.available + d.available < 0
  · simp [Balance.apply, hc, resultIsOk] at hs
  · push_neg at hc
    simp [Balance.apply, not_or.mpr ⟨not_lt.mpr hc.1, not_lt.mpr hc.2⟩]
    exact ⟨hc.2, hc.1⟩

/-- Witness for C4 (amended): the counterexample input also witnesses the
amended conclusion. -/
theorem C4_witness :
    0 ≤ (c4b.apply c4d).2.available ∧ 0 ≤ (c4b.apply c4d).2.total :=
  C4_amended c4b c4d (by norm_num [c4b]) (by norm_num [c4b])
    (by norm_num [c4b, c4d, Balance.apply, resultIsOk])

/-- C7: applying a delta and then its negation, when both applications
succeed, restores `total` and `available` exactly. -/
theorem C7_roundtrip (b : Balance) (d : BalanceDelta)
    (h1 : resultIsOk (b.apply d).1 = true)
    (h2 : resultIsOk (((b.apply d).2).apply d.neg).1 = true) :
    (((b.apply d).2).apply d.neg).2.total = b.total ∧
    (((b.apply d).2).apply d.neg).2.available = b.available := by
  by_cases hc1 : b.total + d.total < 0 ∨ b.available + d.available < 0
  · simp [Balance.apply, hc1, resultIsOk] at h1
  · have e1 : (b.apply d).2 =
        { total := b.total + d.total, available := b.available + d.available } := by
      simp [Balance.apply, hc1]
    rw [e1] at h2 ⊢
    by_cases hc2 : b.total + d.total + d.neg.total < 0 ∨
        b.available + d.available + d.neg.available < 0
    · simp [Balance.apply, hc2, resultIsOk] at h2
    · have e2 : (Balance.apply
          { total := b.total + d.total, available := b.available + d.available }
          d.neg).2 =
          { total := b.total + d.total + d.neg.total,
            available := b.available + d.available + d.neg.available } := by
        simp [Balance.apply, hc2]
      rw [e2]
      constructor <;> · simp only [BalanceDelta.neg]; ring

/-- Witness for C7: round-trip of `(10, 5)` over `(100, 50)`. -/
theorem C7_witness :
    ((c3b.apply c3d).2.apply c3d.neg).2.total = c3b.total ∧
    ((c3b.apply c3d).2.apply c3d.neg).2.available = c3b.available :=
  C7_roundtrip c3b c3d
    (by norm_num [c3b, c3d, Balance.apply, resultIsOk])
    (by norm_num [c3b, c3d, Balance.apply, BalanceDelta.neg, resultIsOk])

/-- Account configuration with leverage 2, a concrete "account leverage"
for the C1 counterexample. -/
def c1config : AccountConfig :=
  { position_direction_mode := PositionDirectionMode.NetMode
    position_margin_mode := PositionMarginMode.Cross
    account_leverage_rate := 2 }

/-- A concrete Buy `Order<RequestOpen>` with price 2 and size 3. -/
def c1order : Order RequestOpen :=
  { exchange := "simulated"
    instrument := { base := "BTC", quote := "USDT", kind := InstrumentKind.Perpetual }
    client_ts := 0
    cid := "cid-1"
    side := Side.Buy
    state := { kind := OrderKind.Limit, price := 2, size := 3 } }

/-- C1 counterexample: for a Buy order with price 2 and size 3 under
account leverage 2, `calculate_required_available_balance` returns
amount `price * size = 6`, not the claimed `price * size / leverage = 3`:
the function never divides by the account leverage. -/
theorem C1_counterexample :
    c1order.side = Side.Buy ∧
    (c1order.calculate_required_available_balance).2 = 6 ∧
    (c1order.calculate_required_available_balance).2 ≠
      c1order.state.price * c1order.state.size / c1config.account_leverage_rate := by
  refine ⟨rfl, ?_, ?_⟩ <;>
    norm_num [c1order, c1config, Order.calculate_required_available_balance]

/-- C1 amended: `calculate_required_available_balance` returns
`(quote, price * size)` for a Buy (no leverage division) and
`(base, size)` for a Sell. -/
theorem C1_amended (o : Order RequestOpen) :
    o.calculate_required_available_balance =
      if o.side = Side.Buy then (o.instrument.quote, o.state.price * o.state.size)
      else (o.instrument.base, o.state.size) := by
  cases h : o.side <;> simp [Order.calculate_required_available_balance, h]

/-- Concrete `Order<Open>` builder used by the comparator claims: all
numeric fields finite, `filled_quantity` and the identifying fields
fixed. -/
def mkOpenOrder (side : Side) (price size filled : ℚ) : Order Open :=
  { exchange := "simulated"
    instrument := { base := "ETH", quote := "USDT", kind := InstrumentKind.Perpetual }
    client_ts := 0
    cid := "cid"
    side := side
    state := { kind := OrderKind.Limit, id := "oid", price := F.num price,
               size := F.num size, filled_quantity := F.num filled } }

/-- C5 counterexample.  The claim reads "higher price has priority" for
bids, "lower price has priority" for asks, and "smaller
remaining-quantity has priority" for both.  The first two conjuncts show
that on the price component the prioritised order compares `Greater`
(for bids the higher-priced one, for asks the lower-priced one), pinning
down how "has priority" is encoded by the comparator.  The last two
conjuncts compare an equal-price pair with remaining quantities 1 and 2
on each side: the sells rank the smaller remaining quantity `Greater`
(as the claim demands), but the buys rank it `Less` — the buy tie-break
is inverted relative to the claim. -/
theorem C5_counterexample :
    Order.cmp (mkOpenOrder Side.Buy 101 1 0) (mkOpenOrder Side.Buy 100 1 0) =
      some Ordering.gt ∧
    Order.cmp (mkOpenOrder Side.Sell 100 1 0) (mkOpenOrder Side.Sell 101 1 0) =
      some Ordering.gt ∧
    Order.cmp (mkOpenOrder Side.Buy 100 1 0) (mkOpenOrder Side.Buy 100 2 0) =
      some Ordering.lt ∧
    Order.cmp (mkOpenOrder Side.Sell 100 1 0) (mkOpenOrder Side.Sell 100 2 0) =
      some Ordering.gt := by
  norm_num [Order.cmp, Order.partialCmp, mkOpenOrder, Open.remaining_quantity,
    F.sub, F.partialCmp, qcmp]

/-- C5 amended: on finite values, two Buy orders compare lexicographically
ascending on (price, remaining_quantity), and two Sell orders compare by
exactly the reversed comparison, i.e. descending on both components.
Read as a max-first priority, bids give priority to the higher price
with the larger remaining quantity winning a price tie, and asks to the
lower price with the smaller remaining quantity winning a price tie. -/
theorem C5_amended (a b : Order Open) (pa pb ra rb : ℚ)
    (hpa : a.state.price = F.num pa) (hpb : b.state.price = F.num pb)
    (hra : a.state.remaining_quantity = F.num ra)
    (hrb : b.state.remaining_quantity = F.num rb) :
    (a.side = Side.Buy → b.side = Side.Buy →
      Order.partialCmp a b = some (lexCmp (pa, ra) (pb, rb))) ∧
    (a.side = Side.Sell → b.side = Side.Sell →
      Order.partialCmp a b = some (lexCmp (pb, rb) (pa, ra))) := by
  constructor
  · intro ha hb
    simp only [Order.partialCmp, ha, hb, hpa, hpb, hra, hrb, F.partialCmp, lexCmp]
    cases hq : qcmp pa pb <;> simp
  · intro ha hb
    simp only [Order.partialCmp, ha, hb, hpa, hpb, hra, hrb, F.partialCmp, lexCmp]
    cases hq : qcmp pb pa <;> simp

/-- Witness for C5 (amended): the equal-price buy pair with remaining
quantities 1 and 2. -/
theorem C5_witness :
    Order.partialCmp (mkOpenOrder Side.Buy 100 1 0) (mkOpenOrder Side.Buy 100 2 0) =
      some (lexCmp (100, 1) (100, 2)) :=
  (C5_amended (mkOpenOrder Side.Buy 100 1 0) (mkOpenOrder Side.Buy 100 2 0)
      100 100 1 2 rfl rfl
      (by norm_num [mkOpenOrder, Open.remaining_quantity, F.sub])
      (by norm_num [mkOpenOrder, Open.remaining_quantity, F.sub])).1 rfl rfl

/-- C9: a Buy and a Sell `Order<Open>` are incomparable — `partial_cmp`
returns `None` and `cmp` panics (modelled `none`); on a same-side pair
whose prices and remaining quantities are finite (not NaN), `cmp` always
returns an ordering (modelled `some`), i.e. it is total and never
panics. -/
theorem C9_cmp_totality (a b : Order Open) :
    (a.side ≠ b.side → Order.partialCmp a b = none ∧ Order.cmp a b = none) ∧
    (∀ pa pb ra rb : ℚ, a.side = b.side →
      a.state.price = F.num pa → b.state.price = F.num pb →
      a.state.remaining_quantity = F.num ra →
      b.state.remaining_quantity = F.num rb →
      (Order.cmp a b).isSome = true) := by
  constructor
  · intro hne
    cases ha : a.side <;> cases hb : b.side
    · rw [ha, hb] at hne; exact absurd rfl hne
    · constructor <;> simp [Order.cmp, Order.partialCmp, ha, hb]
    · constructor <;> simp [Order.cmp, Order.partialCmp, ha, hb]
    · rw [ha, hb] at hne; exact absurd rfl hne
  · intro pa pb ra rb hss hpa hpb hra hrb
    cases ha : a.side <;> cases hb : b.side
    · simp only [Order.cmp, Order.partialCmp, ha, hb, hpa, hpb, hra, hrb, F.partialCmp]
      cases hq : qcmp pa pb <;> simp
    · rw [ha, hb] at hss; exact absurd hss (by decide)
    · rw [ha, hb] at hss; exact absurd hss (by decide)
    · simp only [Order.cmp, Order.partialCmp, ha, hb, hpa, hpb, hra, hrb, F.partialCmp]
      cases hq : qcmp pb pa <;> simp

/-- Witness for C9: a mixed pair is incomparable and its `cmp` panics; an
equal-side pair with finite fields gets an ordering. -/
theorem C9_witness :
    (Order.partialCmp (mkOpenOrder Side.Buy 100 1 0) (mkOpenOrder Side.Sell 100 1 0) = none ∧
     Order.cmp (mkOpenOrder Side.Buy 100 1 0) (mkOpenOrder Side.Sell 100 1 0) = none) ∧
    (Order.cmp (mkOpenOrder Side.Buy 101 2 0) (mkOpenOrder Side.Buy 100 3 0)).isSome = true :=
  ⟨(C9_cmp_totality (mkOpenOrder Side.Buy 100 1 0) (mkOpenOrder Side.Sell 100 1 0)).1
      (by simp [mkOpenOrder]),
   (C9_cmp_totality (mkOpenOrder Side.Buy 101 2 0) (mkOpenOrder Side.Buy 100 3 0)).2
      101 100 2 3 rfl rfl rfl
      (by norm_num [mkOpenOrder, Open.remaining_quantity, F.sub])
      (by norm_num [mkOpenOrder, Open.remaining_quantity, F.sub])⟩

/-- Insert-or-replace always leaves the key present. -/
theorem containsKey_upsert {α : Type} (m : PosMap α) (k : Instrument) (v : α) :
    containsKey (upsert m k v) k = true := by
  induction m with
  | nil => simp [upsert, containsKey]
  | cons hd tl ih =>
    by_cases h : hd.1 = k
    · simp [upsert, h, containsKey]
    · simp only [upsert, if_neg h, containsKey, List.any_cons] at ih ⊢
      simp [ih]

/-- The instrument of the C2 counterexample. -/
def c2instr : Instrument :=
  { base := "BTC", quote := "USDT", kind := InstrumentKind.Perpetual }

/-- Position metadata on `c2instr` with the given side. -/
def c2meta (side : Side) : PositionMeta :=
  { position_id := { instrument := c2instr, ts := 0 }
    enter_ts := 0
    update_ts := 0
    exit_balance := { token := "BTC",
                      balance := { current_price := 50000, total := 1, available := 1 } }
    exchange := "SandBox"
    instrument := c2instr
    side := side
    current_size := 1
    current_fees_total := 0
    current_avg_price_gross := 50000
    current_symbol_price := 50000
    current_avg_price := 50000
    unrealised_pnl := 0
    realised_pnl := 0 }

/-- A NetMode long perpetual position on `c2instr`. -/
def c2long : PerpetualPosition :=
  { meta := c2meta Side.Buy
    liquidation_price := 45000
    margin := 5000
    pos_config := { pos_margin_mode := PositionMarginMode.Cross
                    leverage := 10
                    position_mode := PositionDirectionMode.NetMode } }

/-- A NetMode short perpetual position on `c2instr`. -/
def c2short : PerpetualPosition :=
  { meta := c2meta Side.Sell
    liquidation_price := 55000
    margin := 5000
    pos_config := { pos_margin_mode := PositionMarginMode.Cross
                    leverage := 10
                    position_mode := PositionDirectionMode.NetMode } }

/-- C2 counterexample: starting from `AccountPositions::init`, updating a
NetMode long and then a NetMode short perpetual position on the same
instrument leaves that instrument present in both `perpetual_pos_long`
and `perpetual_pos_short` — `update_position` never consults the
position direction mode (the repository's own `test_has_position` test
asserts exactly this double-sided outcome). -/
theorem C2_counterexample :
    c2long.pos_config.position_mode = PositionDirectionMode.NetMode ∧
    c2short.pos_config.position_mode = PositionDirectionMode.NetMode ∧
    (applyUpdates AccountPositions.init
        [Position.Perpetual c2long, Position.Perpetual c2short]).map
      (fun s => (containsKey s.perpetual_pos_long c2instr,
                 containsKey s.perpetual_pos_short c2instr)) = some (true, true) := by
  refine ⟨rfl, rfl, ?_⟩
  simp [applyUpdates, AccountPositions.update_position, AccountPositions.init,
    c2long, c2short, c2meta, upsert, containsKey]

/-- C2 amended: `update_position` on a perpetual position inserts or
replaces in the map selected by `meta.side` alone and leaves the
opposite-side perpetual map untouched; the NetMode one-side-per-
instrument rule is not enforced, so both maps can hold the same
instrument. -/
theorem C2_amended (s s' : AccountPositions) (q : PerpetualPosition)
    (h : s.update_position (Position.Perpetual q) = some s') :
    (q.meta.side = Side.Buy →
      s'.perpetual_pos_short = s.perpetual_pos_short ∧
      containsKey s'.perpetual_pos_long q.meta.instrument = true) ∧
    (q.meta.side = Side.Sell →
      s'.perpetual_pos_long = s.perpetual_pos_long ∧
      containsKey s'.perpetual_pos_short q.meta.instrument = true) := by
  cases hq : q.meta.side
  · simp only [AccountPositions.update_position, hq, Option.some.injEq] at h
    subst h
    constructor
    · intro _
      exact ⟨rfl, containsKey_upsert s.perpetual_pos_long q.meta.instrument q⟩
    · intro hcontra
      exact absurd hcontra (by simp [hq])
  · simp only [AccountPositions.update_position, hq, Option.some.injEq] at h
    subst h
    constructor
    · intro hcontra
      exact absurd hcontra (by simp [hq])
    · intro _
      exact ⟨rfl, containsKey_upsert s.perpetual_pos_short q.meta.instrument q⟩

/-- The account-positions state after inserting `c2long` from `init`. -/
def c2state1 : AccountPositions :=
  { AccountPositions.init with
    perpetual_pos_long := upsert AccountPositions.init.perpetual_pos_long
      c2instr c2long }

/-- Witness for C2 (amended): updating the long position from `init`
leaves the short map empty and makes the long map contain the
instrument. -/
theorem C2_witness :
    c2state1.perpetual_pos_short = AccountPositions.init.perpetual_pos_short ∧
    containsKey c2state1.perpetual_pos_long c2long.meta.instrument = true :=
  (C2_amended AccountPositions.init c2state1 c2long rfl).1 rfl

/-- C6: `build_new_perpetual_position` sets the position's margin to
`trade.price * trade.quantity / account_leverage_rate`, and its
liquidation price to `trade.price * (1 - margin / (quantity * price))`
for a Buy and `trade.price * (1 + margin / (quantity * price))` for a
Sell. -/
theorem C6_build_new_perpetual_position (config : AccountConfig)
    (trade : ClientTrade) (ts : Int) :
    (AccountPositions.build_new_perpetual_position config trade ts).margin =
      trade.price * trade.quantity / config.account_leverage_rate ∧
    (trade.side = Side.Buy →
      (AccountPositions.build_new_perpetual_position config trade ts).liquidation_price =
        trade.price * (1 -
          (AccountPositions.build_new_perpetual_position config trade ts).margin /
            (trade.quantity * trade.price))) ∧
    (trade.side = Side.Sell →
      (AccountPositions.build_new_perpetual_position config trade ts).liquidation_price =
        trade.price * (1 +
          (AccountPositions.build_new_perpetual_position config trade ts).margin /
            (trade.quantity * trade.price))) := by
  refine ⟨rfl, ?_, ?_⟩ <;> intro h <;>
    simp [AccountPositions.build_new_perpetual_position, h]

/-- Account configuration for the C6 witness: leverage 10. -/
def c6config : AccountConfig :=
  { position_direction_mode := PositionDirectionMode.NetMode
    position_margin_mode := PositionMarginMode.Cross
    account_leverage_rate := 10 }

/-- Trade for the C6 witness: buy 1 at 50000 (the numbers of the
repository's `create_perpetual_position` test helper). -/
def c6trade : ClientTrade :=
  { instrument := { base := "BTC", quote := "USDT", kind := InstrumentKind.Perpetual }
    price := 50000
    quantity := 1
    fees := 0
    side := Side.Buy
    timestamp := 1625097600000 }

/-- Witness for C6: for a buy of 1 at 50000 under leverage 10 the margin
is 5000 and the liquidation price is 45000. -/
theorem C6_witness :
    (AccountPositions.build_new_perpetual_position c6config c6trade 0).margin = 5000 ∧
    (AccountPositions.build_new_perpetual_position c6config c6trade 0).liquidation_price
      = 45000 := by
  have h := C6_build_new_perpetual_position c6config c6trade 0
  have hm : (AccountPositions.build_new_perpetual_position c6config c6trade 0).margin
      = 5000 := by
    rw [h.1]; norm_num [c6config, c6trade]
  refine ⟨hm, ?_⟩
  rw [h.2.1 rfl, hm]
  norm_num [c6trade]

/-- A Spot instrument, unsupported by the position ledger. -/
def c8spot : Instrument :=
  { base := "BTC", quote := "USDT", kind := InstrumentKind.Spot }

/-- C8 counterexample: on a Spot instrument `has_long_position` and
`has_short_position` hit `todo!(..)` — an unconditional panic, modelled
`none` — instead of returning an `UnsupportedInstrument` error (the
functions return plain `bool` and have no error path at all). -/
theorem C8_counterexample :
    AccountPositions.init.has_long_position c8spot = none ∧
    AccountPositions.init.has_short_position c8spot = none := by
  constructor <;> rfl

/-- C8 amended: for every positions state and every instrument of kind
Spot, CommodityFuture or CommodityOption, `has_long_position` and
`has_short_position` panic (modelled `none`) rather than returning a
result or an error. -/
theorem C8_amended (s : AccountPositions) (i : Instrument)
    (h : i.kind = InstrumentKind.Spot ∨ i.kind = InstrumentKind.CommodityFuture ∨
         i.kind = InstrumentKind.CommodityOption) :
    s.has_long_position i = none ∧ s.has_short_position i = none := by
  rcases h with h | h | h <;>
    simp [AccountPositions.has_long_position, AccountPositions.has_short_position, h]

/-- A CommodityFuture instrument, also unsupported. -/
def c8commfut : Instrument :=
  { base := "WTI", quote := "USD", kind := InstrumentKind.CommodityFuture }

/-- Witness for C8 (amended): the CommodityFuture lookup panics on both
sides. -/
theorem C8_witness :
    AccountPositions.init.has_long_position c8commfut = none ∧
    AccountPositions.init.has_short_position c8commfut = none :=
  C8_amended AccountPositions.init c8commfut (Or.inr (Or.inl rfl))

/-- Dropping a suffix's length from the end and re-appending the suffix
reconstructs the list. -/
theorem take_append_of_suffix {q s : List Char} (h : q <:+ s) :
    s.take (s.length - q.length) ++ q = s := by
  obtain ⟨p, rfl⟩ := h
  rw [List.length_append, Nat.add_sub_cancel, List.take_left]

/-- The loop of `parse_base_and_quote` splits its input at the first
matching quote suffix. -/
theorem parseLoop_spec (qs : List (List Char)) (s : List Char) :
    (parseLoop qs s).1 ++ (parseLoop qs s).2 = s ∧
    (parseLoop qs s).2 = ((qs.find? (fun q => decide (q <:+ s))).getD []) := by
  induction qs with
  | nil => simp [parseLoop]
  | cons q rest ih =>
    by_cases h : q <:+ s
    · simp only [parseLoop, if_pos h]
      refine ⟨take_append_of_suffix h, ?_⟩
      rw [List.find?_cons_of_pos _ (by simpa using h)]
      rfl
    · simp only [parseLoop, if_neg h]
      refine ⟨ih.1, ?_⟩
      rw [List.find?_cons_of_neg _ (by simpa using h)]
      exact ih.2

/-- C10: `parse_base_and_quote` always returns a pair whose concatenation
is the input, and the returned quote is the first element of
`[USDT, USDC, USD, UST, DAI, FDUSD]` that is a suffix of the input
(empty when none is, in which case the base is the whole input). -/
theorem C10_parse_base_and_quote (s : List Char) :
    (parse_base_and_quote s).1 ++ (parse_base_and_quote s).2 = s ∧
    (parse_base_and_quote s).2 =
      ((quote_assets.find? (fun q => decide (q <:+ s))).getD []) :=
  parseLoop_spec quote_assets s

end Hourglass
